import Mathlib

/-!
Shallow embedding of `cpuwidget.pyw` (a Windows tray widget showing CPU
usage, with a scheduled update-check subsystem) and proofs about it.

Python-level conventions used throughout:
* lines of external-tool output are modelled as `List String`
  (`out.decode().splitlines()`);
* a missing external tool (`FileNotFoundError` from `subprocess.Popen`)
  is modelled by the input `Option (List String)` being `none`;
* a Python exception escaping a checker function is modelled by
  `Except.error`;
* `str.split()` / `str.split('|')` / `str.find` / slicing / `int(...)` /
  `re.match` are modelled character-exactly for the ASCII inputs the
  program deals with (Python's `\d` and `int` additionally accept
  non-ASCII digits, which never occur in version strings here).
-/

namespace CpuWidget

/-! ### Configurables (module top of `cpuwidget.pyw`) -/

def ignore_pip_packages : List String :=
  ["zipp", "jedi", "readme-renderer", "pypdfium2"]

def ignore_choco_packages : List String :=
  ["nodejs.install", "nodejs", "msys2"]

def pip_ignore_breaking_changes : Bool := true

def choco_ignore_breaking_changes : Bool := true

def hours_to_search_for_upgrades : List Nat := [22, 4, 10, 16]

/-! ### Scheduler (`Widget.mainloop`, lines 167-173)

Each loop tick computes `now` and runs

    if now.hour in hours_to_search_for_upgrades:
        if not self.lock:
            self._check_for_updates()
            self.lock = True
    else:
        self.lock = False

`schedStep` returns the new value of `self.lock` together with whether
`_check_for_updates` was invoked on this tick. -/

def schedStep (hoursSet : List Nat) (lock : Bool) (hour : Nat) : Bool × Bool :=
  if hour ∈ hoursSet then
    if lock then (lock, false) else (true, true)
  else (false, false)

/-- Number of `_check_for_updates` invocations over a sequence of observed
tick hours, starting from lock state `lock`. -/
def schedFires (hoursSet : List Nat) (lock : Bool) : List Nat → Nat
  | [] => 0
  | h :: t =>
    let s := schedStep hoursSet lock h
    (if s.2 then 1 else 0) + schedFires hoursSet s.1 t

/-- Spec-side count, written independently of the code: the number of
maximal runs of consecutive ticks whose hour lies in `hoursSet` (each
maximal run contains exactly one run-end, which is what is counted). -/
def countMemberRuns (hoursSet : List Nat) : List Nat → Nat
  | [] => 0
  | [h] => if h ∈ hoursSet then 1 else 0
  | h :: h2 :: t =>
    (if h ∈ hoursSet ∧ h2 ∉ hoursSet then 1 else 0)
      + countMemberRuns hoursSet (h2 :: t)

/-- Spec-side model of the claim's "independent Armed/Fired latch per
configured hour h": each configured hour contributes one firing per
maximal run of consecutive ticks whose hour equals it. -/
def perHourLatchFires (hoursSet : List Nat) (hs : List Nat) : Nat :=
  (hoursSet.map (fun h => countMemberRuns [h] hs)).sum

/-- Whether the first tick of the sequence is in the configured set
(`false` for the empty sequence). -/
def memHead (hoursSet : List Nat) : List Nat → Prop
  | [] => False
  | h :: _ => h ∈ hoursSet

instance (hoursSet hs : List Nat) : Decidable (memHead hoursSet hs) := by
  cases hs <;> simp [memHead] <;> infer_instance

theorem schedFires_count (hoursSet : List Nat) (hs : List Nat) (lock : Bool) :
    countMemberRuns hoursSet hs
      = schedFires hoursSet lock hs
        + (if lock = true ∧ memHead hoursSet hs then 1 else 0) := by
  induction hs generalizing lock with
  | nil => simp [countMemberRuns, schedFires, memHead]
  | cons h t ih =>
    cases t with
    | nil =>
      by_cases hm : h ∈ hoursSet <;> cases lock <;>
        simp [countMemberRuns, schedFires, schedStep, memHead, hm]
    | cons h2 t2 =>
      by_cases hm : h ∈ hoursSet <;> by_cases hm2 : h2 ∈ hoursSet <;>
        cases lock <;>
        have ih1 := ih true <;> have ih0 := ih false <;>
        simp [countMemberRuns, schedFires, schedStep, memHead, hm, hm2]
          at ih1 ih0 ⊢ <;>
        omega

/-! ### Python string primitives used by the update checkers -/

/-- Split a character list at every separator recognised by `p`,
keeping empty segments (Python keeps them for `str.split('|')`). -/
def splitOnPAux (p : Char → Bool) : List Char → List Char → List (List Char)
  | [], acc => [acc.reverse]
  | c :: cs, acc =>
    if p c then acc.reverse :: splitOnPAux p cs []
    else splitOnPAux p cs (c :: acc)

/-- Python `line.split()`: split on whitespace runs, dropping empty
fields (which also strips leading/trailing whitespace). -/
def pySplitWs (s : String) : List String :=
  ((splitOnPAux (fun c => c.isWhitespace) s.toList []).filter (· ≠ [])).map
    (fun cs => String.mk cs)

/-- Python `line.split('|')`: split at every `'|'`, keeping empty fields. -/
def pySplitPipe (s : String) : List String :=
  (splitOnPAux (fun c => c = '|') s.toList []).map (fun cs => String.mk cs)

/-- Python `self.version_re.match(s)` with `version_re = re.compile(r'\d*\.\d*\.\d*')`
(line 86): anchored at the start, not at the end, and each `\d*` may be
empty.  Since a digit can never stand where the literal dots are
required, the greedy match succeeds iff stripping a maximal digit run
yields a dot, and stripping a second maximal digit run yields a second
dot (the third `\d*` always matches). -/
def laxVersionMatch (s : String) : Bool :=
  match s.toList.dropWhile Char.isDigit with
  | '.' :: t =>
    match t.dropWhile Char.isDigit with
    | '.' :: _ => true
    | _ => false
  | _ => false

/-- Python `s[:s.find('.')]`: everything before the first dot, or — when
`find` returns `-1` — everything but the last character (`s[:-1]`). -/
def sliceToDot (s : String) : String :=
  if '.' ∈ s.toList then String.mk (s.toList.takeWhile (fun c => c ≠ '.'))
  else String.mk s.toList.dropLast

def digitsVal (ds : List Char) : Nat :=
  ds.foldl (fun n c => 10 * n + (c.toNat - 48)) 0

/-- Python `int(s)` on a string: strip surrounding whitespace, optional
sign, then a nonempty digit run; anything else raises `ValueError`
(modelled as `none`).  Underscore digit grouping and non-ASCII digits,
which Python additionally accepts, never occur in this program's data. -/
def pyInt (s : String) : Option Int :=
  let cs :=
    ((s.toList.dropWhile Char.isWhitespace).reverse.dropWhile
        Char.isWhitespace).reverse
  match cs with
  | '-' :: ds =>
    if ds ≠ [] ∧ ds.all Char.isDigit then some (-(digitsVal ds : Int)) else none
  | '+' :: ds =>
    if ds ≠ [] ∧ ds.all Char.isDigit then some (digitsVal ds : Int) else none
  | ds =>
    if ds ≠ [] ∧ ds.all Char.isDigit then some (digitsVal ds : Int) else none

/-- Python `int(version[:version.find('.')])` (lines 290/291, 324/325). -/
def majorOf (s : String) : Option Int := pyInt (sliceToDot s)

/-! ### Update checkers (`_check_pip_updates`, `_check_choco_updates`)

Both loop bodies are identical up to their ignore list, their
breaking-changes switch and how a line is split into fields.  An
uncaught `ValueError` is modelled with `Except.error`; `.ok true`
means "flag set, loop broken", `.ok false` means the scan fell through
without setting the flag. -/

inductive CheckErr where
  | fileNotFound
  | valueError
deriving DecidableEq, Repr

/-- The loop body for one `(name, version, latest)` entry (lines
279-297 respectively 313-331, after the 4-field unpack). -/
def scanEntry (ignoreSet : List String) (ignoreBreaking : Bool)
    (name version latest : String) : Except CheckErr Bool :=
  if name ∈ ignoreSet then .ok false
  else if ignoreBreaking then
    if ¬ (laxVersionMatch version ∨ laxVersionMatch latest) then .ok false
    else
      match majorOf version, majorOf latest with
      | some mv, some ml => if ml > mv then .ok false else .ok true
      | _, _ => .error .valueError
  else .ok true

/-- `name, version, latest, _ = fields`: unpacking raises `ValueError`
unless there are exactly four fields. -/
def scanFields (ignoreSet : List String) (ignoreBreaking : Bool)
    (fields : List String) : Except CheckErr Bool :=
  match fields with
  | [name, version, latest, _x] => scanEntry ignoreSet ignoreBreaking name version latest
  | _ => .error .valueError

/-- The `for line in ...` loop: stop at the first entry that sets the
flag (`break`), propagate the first uncaught exception. -/
def scanLines (ignoreSet : List String) (ignoreBreaking : Bool)
    (split : String → List String) : List String → Except CheckErr Bool
  | [] => .ok false
  | line :: rest =>
    match scanFields ignoreSet ignoreBreaking (split line) with
    | .error e => .error e
    | .ok true => .ok true
    | .ok false => scanLines ignoreSet ignoreBreaking split rest

/-- The same scan at the granularity of already-unpacked
`(name, currentVersion, latestVersion)` entries. -/
def scanEntries (ignoreSet : List String) (ignoreBreaking : Bool) :
    List (String × String × String) → Except CheckErr Bool
  | [] => .ok false
  | (n, v, l) :: rest =>
    match scanEntry ignoreSet ignoreBreaking n v l with
    | .error e => .error e
    | .ok true => .ok true
    | .ok false => scanEntries ignoreSet ignoreBreaking rest

/-- `_check_pip_updates` (lines 266-297): `subprocess.Popen(['pip', ...])`
is not wrapped in any handler, so a missing `pip` executable raises
`FileNotFoundError` out of the function; otherwise the first two output
lines (header) are discarded and the rest scanned. -/
def checkPip (toolOutput : Option (List String)) : Except CheckErr Bool :=
  match toolOutput with
  | none => .error .fileNotFound
  | some lines =>
    scanLines ignore_pip_packages pip_ignore_breaking_changes pySplitWs
      (lines.drop 2)

/-- `_check_choco_updates` (lines 299-331): `FileNotFoundError` is caught
(`try ... except FileNotFoundError: return`), so a missing `choco`
executable just returns with the flag untouched; otherwise every output
line is scanned on `'|'`-separated fields. -/
def checkChoco (toolOutput : Option (List String)) : Except CheckErr Bool :=
  match toolOutput with
  | none => .ok false
  | some lines =>
    scanLines ignore_choco_packages choco_ignore_breaking_changes pySplitPipe
      lines

/-- The flag each worker leaves behind, starting from `False`: a scan
that raises before finding a qualifying entry never reaches the
`self.xxx_update = True` assignment (the scan breaks as soon as the
flag is set, so an exception can only occur while it is still false). -/
def flagAfter (r : Except CheckErr Bool) : Bool :=
  match r with
  | .ok b => b
  | .error _ => false

/-- `_check_for_updates` (lines 262-264) runs both workers on their own
threads; each communicates only through its own flag. -/
def checkAllFlags (pipOut chocoOut : Option (List String)) : Bool × Bool :=
  (flagAfter (checkPip pipOut), flagAfter (checkChoco chocoOut))

/-! ### Renderer and sampler (`_get_image`, lines 218-237) -/

/-- Python `round`: round half to even (banker's rounding), the model of
`round(psutil.cpu_percent(interval=self.sec))` on an exact-real reading. -/
def pyRound (q : ℚ) : ℤ :=
  if q - Int.floor q < 1/2 then Int.floor q
  else if (1:ℚ)/2 < q - Int.floor q then Int.floor q + 1
  else if Int.floor q % 2 = 0 then Int.floor q else Int.floor q + 1

/-- Line 219: `cpu_percent = round(psutil.cpu_percent(interval=self.sec))`
as a function of the raw reading.  No clamping is applied. -/
def sampledPercent (raw : ℚ) : ℤ := pyRound raw

/-- Lines 220-225: font size and anchor position. -/
def fontParams (cpu_percent : ℤ) : ℕ × ℕ × ℕ :=
  if cpu_percent = 100 then (21, 14, 14) else (24, 18, 14)

/-- Lines 228-237: the `colors_tuple` RGBA selection, in source order. -/
def colorsTuple (write_in_black : Bool) (cpu_percent : ℤ) : ℕ × ℕ × ℕ × ℕ :=
  if write_in_black ∧ cpu_percent < 50 then (0, 0, 0, 255)
  else if write_in_black ∧ cpu_percent < 75 then (230, 122, 5, 255)
  else if cpu_percent < 50 then (255, 255, 255, 255)
  else if cpu_percent < 75 then (255, 255, 0, 255)
  else (255, 0, 0, 255)

/-! ### Event-loop flag drain (`mainloop`, lines 154-165) and theme
callback (`_darkdetect_callback`, lines 195-197) -/

structure Flags where
  pip : Bool
  choco : Bool
deriving DecidableEq, Repr

/-- One pass over the two `if self.xxx_update:` blocks at the top of the
loop body: returns the new flag state plus how many notifications were
posted for pip and for choco on this pass. -/
def drainStep (s : Flags) : Flags × Nat × Nat :=
  let chocoNotes := if s.choco then 1 else 0
  let choco' := if s.choco then false else s.choco
  let pipNotes := if s.pip then 1 else 0
  let pip' := if s.pip then false else s.pip
  (⟨pip', choco'⟩, pipNotes, chocoNotes)

/-- `n` consecutive loop iterations in which no worker writes a flag:
final state plus total pip/choco notification counts. -/
def drainRun : Nat → Flags → Flags × Nat × Nat
  | 0, s => (s, 0, 0)
  | n + 1, s =>
    let d := drainStep s
    let r := drainRun n d.1
    (r.1, d.2.1 + r.2.1, d.2.2 + r.2.2)

/-- `_darkdetect_callback`: the `color` payload (`'Light'` or `'Dark'`)
is ignored and the flag unconditionally inverted. -/
def darkdetectCallback (color : String) (write_in_black : Bool) : Bool :=
  !write_in_black

/-! ### Claim C1 — scheduler latching -/

/-- C1 counterexample: the claim describes an independent Armed/Fired
latch per configured hour, firing once per maximal run of ticks at each
hour even when two configured hours are adjacent.  With configured hours
{4, 5} and ticks observing hour 4 then hour 5, per-hour latches would
fire twice (once for each hour's run), but the code's single shared
`self.lock` stays held across the boundary and fires only once. -/
theorem c1_counterexample :
    schedFires [4, 5] false [4, 5] = 1 ∧ perHourLatchFires [4, 5] [4, 5] = 2 :=
  ⟨rfl, rfl⟩

/-- C1 (amended): the scheduler is a single shared latch on membership of
the configured hour set: a tick fires iff its hour is in the set and the
latch was not held, the latch is held afterwards iff the hour is in the
set, and — starting unlatched — the loop triggers exactly one
`_check_for_updates` per maximal run of consecutive ticks whose hour lies
in the set (so adjacent configured hours merge into one run with a single
firing). -/
theorem c1_sched_single_latch (hoursSet : List Nat) (hs : List Nat) :
    (∀ (lock : Bool) (hour : Nat),
        schedStep hoursSet lock hour
          = (decide (hour ∈ hoursSet), decide (hour ∈ hoursSet) && !lock)) ∧
    schedFires hoursSet false hs = countMemberRuns hoursSet hs := by
  constructor
  · intro lock hour
    by_cases hm : hour ∈ hoursSet <;> cases lock <;> simp [schedStep, hm]
  · have h := (schedFires_count hoursSet hs false).symm
    simpa using h

/-! ### Claim C2 — breaking-changes filter on concrete entries -/

/-- C2 counterexample: with breaking-change-ignore enabled and an empty
ignore set, the claim says the single entry ("foo","1.2.3","1.3.0") is
filtered out and the flag stays false; in the code the skip condition is
`major_latest > major_version`, which is false here (1 > 1 fails), so
the entry sets the flag true. -/
theorem c2_counterexample :
    scanEntries [] true [("foo", "1.2.3", "1.3.0")] = .ok true ∧
    flagAfter (scanEntries [] true [("foo", "1.2.3", "1.3.0")]) ≠ false :=
  ⟨rfl, by decide⟩

/-- C2 (amended): with breaking-change-ignore enabled and an empty ignore
set, the single entry ("foo","1.2.3","1.3.0") sets the flag true
(same-major upgrades survive the filter); ("foo","1.2.3","2.0.0") leaves
it false (the major increased); ("foo","1.2.3","1.9.9") sets it true. -/
theorem c2_breaking_filter_cases :
    flagAfter (scanEntries [] true [("foo", "1.2.3", "1.3.0")]) = true ∧
    flagAfter (scanEntries [] true [("foo", "1.2.3", "2.0.0")]) = false ∧
    flagAfter (scanEntries [] true [("foo", "1.2.3", "1.9.9")]) = true :=
  ⟨rfl, rfl, rfl⟩

/-! ### Claim C3 — missing external tool -/

/-- C3 counterexample: the claim says a missing "list outdated packages"
command is a soft failure for each of the two ecosystems; but
`_check_pip_updates` does not guard `subprocess.Popen(['pip', ...])`, so
a missing `pip` raises `FileNotFoundError` out of the check. -/
theorem c3_counterexample :
    checkPip none = Except.error CheckErr.fileNotFound :=
  rfl

/-- C3 (amended): a missing `choco` tool is a soft failure — the check
returns with the flag still false and no error; a missing `pip` tool
raises out of the check, though the pip flag also stays false because
the flag assignment is never reached. -/
theorem c3_missing_tool :
    checkChoco none = Except.ok false ∧
    checkPip none = Except.error CheckErr.fileNotFound ∧
    flagAfter (checkPip none) = false ∧
    flagAfter (checkChoco none) = false :=
  ⟨rfl, rfl, rfl, rfl⟩

/-! ### Claim C4 — malformed lines are isolated hard errors -/

/-- C4: a line with the wrong field count raises `ValueError` in the scan
that meets it; when one ecosystem's check errors that way, its flag is
left false while the other ecosystem's flag is still computed from its
own output in the same `_check_for_updates` cycle. -/
theorem c4_malformed_isolated (pLines cLines : List String) :
    (∀ (ig : List String) (ib : Bool) (fields : List String),
        fields.length ≠ 4 → scanFields ig ib fields = .error .valueError) ∧
    (checkPip (some pLines) = .error .valueError →
        checkAllFlags (some pLines) (some cLines)
          = (false, flagAfter (checkChoco (some cLines)))) ∧
    (checkChoco (some cLines) = .error .valueError →
        checkAllFlags (some pLines) (some cLines)
          = (flagAfter (checkPip (some pLines)), false)) := by
  refine ⟨?_, ?_, ?_⟩
  · intro ig ib fields hlen
    match fields with
    | [] => rfl
    | [_] => rfl
    | [_, _] => rfl
    | [_, _, _] => rfl
    | [_, _, _, _] => exact absurd rfl hlen
    | _ :: _ :: _ :: _ :: _ :: _ => rfl
  · intro hp
    simp [checkAllFlags, flagAfter, hp]
  · intro hc
    simp [checkAllFlags, flagAfter, hc]

/-- C4 witness: pip output whose third line has three fields errors and
leaves the pip flag false, while the choco flag is still computed (true,
from a qualifying non-major upgrade row) in the same cycle. -/
theorem c4_malformed_isolated_witness :
    checkAllFlags (some ["h1", "h2", "a b c"]) (some ["x|1.0.0|1.0.1|y"])
      = (false, true) := by
  have h :=
    (c4_malformed_isolated ["h1", "h2", "a b c"] ["x|1.0.0|1.0.1|y"]).2.1 rfl
  rw [h]
  rfl

/-! ### Claim C5 — colour tiers -/

/-- C5: for every percentage in [0,100] and both themes, the colour is
chosen by the fixed priority order with buckets [0,50), [50,75),
[75,100], each inclusive on its lower bound: dark & pct<50 near-black;
dark & pct<75 amber; else pct<50 near-white; else pct<75 yellow; else
red — with the four boundary samples from the spec. -/
theorem c5_color_tiers (pct : ℤ) (dark : Bool) (h0 : 0 ≤ pct) (h100 : pct ≤ 100) :
    (pct < 50 → colorsTuple dark pct
        = if dark then (0, 0, 0, 255) else (255, 255, 255, 255)) ∧
    (50 ≤ pct → pct < 75 → colorsTuple dark pct
        = if dark then (230, 122, 5, 255) else (255, 255, 0, 255)) ∧
    (75 ≤ pct → colorsTuple dark pct = (255, 0, 0, 255)) ∧
    colorsTuple false 49 = (255, 255, 255, 255) ∧
    colorsTuple false 50 = (255, 255, 0, 255) ∧
    colorsTuple true 74 = (230, 122, 5, 255) ∧
    colorsTuple true 75 = (255, 0, 0, 255) := by
  refine ⟨?_, ?_, ?_, rfl, rfl, rfl, rfl⟩
  · intro h50
    cases dark <;> simp [colorsTuple, h50]
  · intro h50 h75
    have hn : ¬ pct < 50 := by omega
    cases dark <;> simp [colorsTuple, hn, h75]
  · intro h75
    have hn50 : ¬ pct < 50 := by omega
    have hn75 : ¬ pct < 75 := by omega
    cases dark <;> simp [colorsTuple, hn50, hn75]

/-- C5 witness at pct = 74, dark theme: amber. -/
theorem c5_color_tiers_witness :
    colorsTuple true 74 = (230, 122, 5, 255) := by
  have h := (c5_color_tiers 74 true (by decide) (by decide)).2.1 (by decide) (by decide)
  simpa using h

/-! ### Claim C6 — font size and anchor -/

/-- C6: for every percentage in [0,100], the renderer uses font size 21
with anchor (14,14) iff the percentage equals 100, and font size 24 with
anchor (18,14) otherwise. -/
theorem c6_font_params (pct : ℤ) (h0 : 0 ≤ pct) (h100 : pct ≤ 100) :
    (fontParams pct = (21, 14, 14) ↔ pct = 100) ∧
    (pct ≠ 100 → fontParams pct = (24, 18, 14)) := by
  constructor
  · constructor
    · intro h
      by_cases hp : pct = 100
      · exact hp
      · simp [fontParams, hp] at h
    · intro h
      simp [fontParams, h]
  · intro h
    simp [fontParams, h]

/-- C6 witness at the two sides of the boundary. -/
theorem c6_font_params_witness :
    fontParams 100 = (21, 14, 14) ∧ fontParams 99 = (24, 18, 14) :=
  ⟨(c6_font_params 100 (by decide) (by decide)).1.mpr rfl,
   (c6_font_params 99 (by decide) (by decide)).2 (by decide)⟩

/-! ### Claim C7 — update-flag drain -/

theorem drainRun_idle (n : Nat) :
    drainRun n ⟨false, false⟩ = (⟨false, false⟩, 0, 0) := by
  induction n with
  | zero => rfl
  | succ m ih => simp [drainRun, drainStep, ih]

/-- C7: a drain step emits exactly one notification for a flag that is
true and resets it; it emits none for a flag that is false and leaves it
false; and over any positive number of consecutive drain steps with no
intervening worker write, the total notification count per ecosystem is
exactly one if that flag was initially true and zero otherwise. -/
theorem c7_flag_drain (s : Flags) :
    (s.pip = true → (drainStep s).2.1 = 1 ∧ (drainStep s).1.pip = false) ∧
    (s.pip = false → (drainStep s).2.1 = 0 ∧ (drainStep s).1.pip = false) ∧
    (s.choco = true → (drainStep s).2.2 = 1 ∧ (drainStep s).1.choco = false) ∧
    (s.choco = false → (drainStep s).2.2 = 0 ∧ (drainStep s).1.choco = false) ∧
    (∀ n, 1 ≤ n →
        (drainRun n s).2.1 = (if s.pip then 1 else 0) ∧
        (drainRun n s).2.2 = (if s.choco then 1 else 0)) := by
  obtain ⟨p, c⟩ := s
  refine ⟨?_, ?_, ?_, ?_, ?_⟩
  · intro h
    cases p <;> cases c <;> simp_all [drainStep]
  · intro h
    cases p <;> cases c <;> simp_all [drainStep]
  · intro h
    cases p <;> cases c <;> simp_all [drainStep]
  · intro h
    cases p <;> cases c <;> simp_all [drainStep]
  · intro n hn
    cases n with
    | zero => omega
    | succ m =>
      cases p <;> cases c <;> simp [drainRun, drainStep, drainRun_idle]

/-- C7 witness: from a state with only the pip flag set, one drain emits
the pip notification and three consecutive drains still emit it exactly
once in total. -/
theorem c7_flag_drain_witness :
    (drainStep ⟨true, false⟩).2.1 = 1 ∧ (drainRun 3 ⟨true, false⟩).2.1 = 1 := by
  have h := c7_flag_drain ⟨true, false⟩
  refine ⟨(h.1 rfl).1, ?_⟩
  have h3 := (h.2.2.2.2 3 (by decide)).1
  simpa using h3

/-! ### Claim C8 — sampler rounding and clamping -/

/-- C8 counterexample: the sampler result is not clamped.  A raw reading
of 100.6 — which `psutil` can report, since the code never bounds it —
rounds to 101, outside [0,100], contradicting the claim that a value
outside [0,100] is never returned. -/
theorem c8_counterexample :
    sampledPercent (503 / 5) = 101 ∧ ¬ sampledPercent (503 / 5) ≤ 100 := by
  have h : sampledPercent (503 / 5) = 101 := by
    norm_num [sampledPercent, pyRound]
  exact ⟨h, by rw [h]; decide⟩

/-- C8 (amended): the sampler result is the raw reading rounded half to
even (Python `round`), with no clamping; whenever the raw reading lies in
[0,100] the result is an integer in [0,100], but out-of-range raw
readings pass through unclamped. -/
theorem c8_rounded_in_range (raw : ℚ) (h0 : 0 ≤ raw) (h100 : raw ≤ 100) :
    0 ≤ sampledPercent raw ∧ sampledPercent raw ≤ 100 := by
  have hf0 : (0 : ℤ) ≤ ⌊raw⌋ := Int.le_floor.mpr (by exact_mod_cast h0)
  have hfle : (⌊raw⌋ : ℚ) ≤ raw := Int.floor_le raw
  have hf100 : ⌊raw⌋ ≤ 100 := by
    have hq : (⌊raw⌋ : ℚ) ≤ 100 := le_trans hfle h100
    exact_mod_cast hq
  unfold sampledPercent pyRound
  split_ifs with h1 h2 h3
  · exact ⟨hf0, hf100⟩
  · refine ⟨by omega, ?_⟩
    have h99 : ⌊raw⌋ ≤ 99 := by
      by_contra hc
      push_neg at hc
      have hcq : (100 : ℚ) ≤ (⌊raw⌋ : ℚ) := by exact_mod_cast hc
      linarith
    omega
  · exact ⟨hf0, hf100⟩
  · refine ⟨by omega, ?_⟩
    have heq : raw - (⌊raw⌋ : ℚ) = 1 / 2 :=
      le_antisymm (not_lt.mp h2) (not_lt.mp h1)
    have h99 : ⌊raw⌋ ≤ 99 := by
      by_contra hc
      push_neg at hc
      have hcq : (100 : ℚ) ≤ (⌊raw⌋ : ℚ) := by exact_mod_cast hc
      linarith
    omega

/-- C8 witness at the half-point 99.5 (odd floor, rounds up to 100). -/
theorem c8_rounded_in_range_witness :
    0 ≤ sampledPercent (199 / 2) ∧ sampledPercent (199 / 2) ≤ 100 :=
  c8_rounded_in_range (199 / 2) (by norm_num) (by norm_num)

/-! ### Claim C9 — theme toggle -/

/-- C9: the theme callback ignores its `'Light'`/`'Dark'` payload and sets
the flag to the negation of its previous value; hence two applications
with any payloads restore the original flag. -/
theorem c9_theme_toggle (c1 c2 : String) (b : Bool) :
    darkdetectCallback c1 b = !b ∧
    darkdetectCallback c2 (darkdetectCallback c1 b) = b := by
  refine ⟨rfl, ?_⟩
  cases b <;> rfl

/-! ### Claim C10 — lax version guard followed by failing extraction -/

/-- C10: the breaking-changes guard skips an entry only when neither
version string matches the lax prefix pattern `\d*\.\d*\.\d*` (whose
numeric components may be empty); when at least one matches, major
extraction `int(s[:s.find('.')])` is attempted on both strings.  The
well-formed, un-ignored entry ("foo","1","1.9.9") — current version with
no dot at all, latest matching the pattern — therefore raises
`ValueError`, leaving the flag false, even though with the
breaking-changes filter off the very same entry would set the flag (an
available same-major upgrade). -/
theorem c10_lax_guard_then_error :
    (∀ (ig : List String) (n v l : String), n ∉ ig →
        laxVersionMatch v = false → laxVersionMatch l = false →
        scanEntry ig true n v l = .ok false) ∧
    (∀ (ig : List String) (n v l : String), n ∉ ig →
        (laxVersionMatch v = true ∨ laxVersionMatch l = true) →
        scanEntry ig true n v l
          = match majorOf v, majorOf l with
            | some mv, some ml => if ml > mv then .ok false else .ok true
            | _, _ => .error .valueError) ∧
    laxVersionMatch "1" = false ∧
    laxVersionMatch "1.9.9" = true ∧
    majorOf "1" = none ∧
    scanEntries [] true [("foo", "1", "1.9.9")] = .error .valueError ∧
    flagAfter (scanEntries [] true [("foo", "1", "1.9.9")]) = false ∧
    scanEntries [] false [("foo", "1", "1.9.9")] = .ok true := by
  refine ⟨?_, ?_, rfl, rfl, rfl, rfl, rfl, rfl⟩
  · intro ig n v l hn hv hl
    simp [scanEntry, hn, hv, hl]
  · intro ig n v l hn hm
    rcases hm with hv | hl
    · simp [scanEntry, hn, hv]
    · simp [scanEntry, hn, hl]

/-- C10 witness: an entry whose two version strings both fail the lax
pattern is skipped by the guard. -/
theorem c10_lax_guard_then_error_witness :
    scanEntry [] true "bar" "abc" "also-bad" = .ok false :=
  c10_lax_guard_then_error.1 [] "bar" "abc" "also-bad"
    (List.not_mem_nil "bar") rfl rfl

end CpuWidget
